import Mathlib

/-!
Verification of the Kafka-UI cluster service layer (`src/lib/kafka-service.ts`)
and its request handlers (`src/app/api/kafka/cluster/route.ts`,
`src/app/api/kafka/topics/route.ts`, `src/types/schemas.ts`).

The service is a singleton holding mutable fields `kafka`, `admin`,
`isConnected`, `connectionConfig`; we embed it as an explicit state record.
The underlying KafkaJS admin client is embedded as an environment describing
the cluster metadata each RPC would return together with a success/failure
outcome per RPC kind.  Every service operation is a pure function from the
state and the environment to a result together with the list of admin-client
RPCs it issued, so "never invokes the admin client" is the statement that this
list is empty.

Numbers are embedded as `Nat`/`Int` (counts in the source are small
non-negative integers; the single floating-point division feeding
`Math.round` is modelled by exact rational rounding `jsRound`).  The mock
broker/topic metrics produced with `Math.random()` in the source are
nondeterministic placeholders and are not part of the embedded records; no
claim mentions them.
-/

namespace KafkaUI

/-- Broker entry as returned by `admin.describeCluster()` (KafkaJS). -/
structure BrokerMeta where
  nodeId : Int
  host : String
  port : Nat
  rack : Option String
deriving Repr, DecidableEq

/-- One partition of a topic as returned by `admin.fetchTopicMetadata()`:
we keep the replica list (broker ids), the only part the service reads. -/
structure PartitionMeta where
  partitionId : Nat
  replicas : List Int
deriving Repr, DecidableEq

/-- Topic metadata as returned by `admin.fetchTopicMetadata()`. -/
structure TopicMeta where
  name : String
  partitions : List PartitionMeta
deriving Repr, DecidableEq

/-- Result of `admin.describeCluster()`: broker list and controller id
(`number | null` in KafkaJS, hence `Option`). -/
structure ClusterMeta where
  brokers : List BrokerMeta
  controller : Option Int
deriving Repr, DecidableEq

/-- Environment for the wire-protocol admin client: the cluster data each RPC
reports when it succeeds, plus a per-RPC outcome (`Except.error msg` embeds a
rejected promise carrying `msg`).  `admin.listTopics()` returns
`topicList.map name`; `admin.fetchTopicMetadata` returns the entries of
`topicList` whose name was requested; `admin.describeConfigs` returns the
`configs` association list per topic name. -/
structure AdminEnv where
  meta : ClusterMeta
  topicList : List TopicMeta
  configs : List (String × List (String × String)) := []
  describeClusterRes : Except String Unit := .ok ()
  listTopicsRes : Except String Unit := .ok ()
  fetchMetadataRes : Except String Unit := .ok ()
  describeConfigsRes : Except String Unit := .ok ()
  createTopicsRes : Except String Unit := .ok ()
  deleteTopicsRes : Except String Unit := .ok ()
  alterConfigsRes : Except String Unit := .ok ()
deriving Repr

/-- One admin-client RPC as issued by the service, with the arguments the
service passed (`createTopics` records topic name, numPartitions,
replicationFactor and configEntries). -/
inductive AdminCall where
  | describeCluster
  | listTopics
  | fetchTopicMetadata (topics : List String)
  | describeConfigs (resources : List String)
  | createTopics (topic : String) (numPartitions : Int)
      (replicationFactor : Int) (configEntries : List (String × String))
  | deleteTopics (topic : String)
  | alterConfigs (topic : String) (configEntries : List (String × String))
deriving Repr, DecidableEq

/-- Recognizes the topic-creation RPC `admin.createTopics(...)`. -/
def AdminCall.isCreateTopics : AdminCall → Bool
  | .createTopics _ _ _ _ => true
  | _ => false

/-- The `KafkaConfig` the service stores in `connectionConfig`
(we keep the fields the service later reads back). -/
structure KafkaConfigM where
  clientId : String
  brokers : List String
deriving Repr, DecidableEq

/-- The mutable fields of the `KafkaService` singleton.  `kafka` and `admin`
record whether `this.kafka` / `this.admin` are non-null. -/
structure KSState where
  kafka : Bool
  admin : Bool
  isConnected : Bool
  connectionConfig : Option KafkaConfigM
deriving Repr, DecidableEq

/-- State of a freshly constructed `KafkaService` (all fields null / false). -/
def initialState : KSState :=
  { kafka := false, admin := false, isConnected := false, connectionConfig := none }

/-- `isConnectionActive()`: `this.isConnected && this.kafka !== null`. -/
def isConnectionActive (st : KSState) : Bool :=
  st.isConnected && st.kafka

/-- `getConnectionInfo()`: `null` without a stored config, otherwise the
joined broker list and the client id (the `||` fallback turns an empty client
id into `"unknown"`; `brokers` is always an array in this embedding, so the
`Array.isArray` branch is taken). -/
def getConnectionInfo (st : KSState) : Option (String × String) :=
  match st.connectionConfig with
  | none => none
  | some c =>
      some (String.intercalate "," c.brokers,
            if c.clientId = "" then "unknown" else c.clientId)

/-- `disconnect()`.  `closeThrows` says whether `admin.disconnect()` rejects
when an admin handle exists; the `try` branch nulls every field, and the
`catch` branch force-clears the same fields, so both paths end cleared. -/
def disconnectOp (st : KSState) (closeThrows : Bool) : KSState :=
  if st.admin && closeThrows then
    -- catch: "Force cleanup even on error"
    { kafka := false, admin := false, isConnected := false, connectionConfig := none }
  else
    { kafka := false, admin := false, isConnected := false, connectionConfig := none }

/-- `connectWithConfig(config)`: stores the config, creates client and admin
handles, then test-connects; `adminConnectOk` is the outcome of
`admin.connect()`.  On failure it runs `disconnect()` for cleanup and returns
the parsed error message. -/
def connectWithConfig (st : KSState) (config : KafkaConfigM)
    (adminConnectOk : Bool) (closeThrows : Bool) : KSState × Option String :=
  let st1 : KSState :=
    { kafka := true, admin := true, isConnected := st.isConnected,
      connectionConfig := some config }
  if adminConnectOk then
    ({ st1 with isConnected := true }, none)
  else
    (disconnectOp st1 closeThrows, some "Kafka connection failed")

/-- `connect(bootstrapServers, clientId)`: splits the comma-separated server
list, trims each entry, and delegates to `connectWithConfig`. -/
def connectOp (st : KSState) (bootstrapServers clientId : String)
    (adminConnectOk : Bool) (closeThrows : Bool) : KSState × Option String :=
  connectWithConfig st
    { clientId := clientId,
      brokers := (bootstrapServers.splitOn ",").map (fun s => s.trim) }
    adminConnectOk closeThrows

/-- States of the singleton whose flags are mutually consistent: whenever
`isConnected` is set, the client and admin handles exist.  Every state the
service code can reach satisfies this. -/
def KSState.wf (st : KSState) : Prop :=
  st.isConnected = true → st.admin = true ∧ st.kafka = true

/-- Error thrown by every aggregation/command method when the connection
guard `!this.admin || !this.isConnected` fires. -/
def notConnectedMsg : String := "Not connected to Kafka cluster"

/-- `Math.round (num / den)` for non-negative operands and `den > 0`,
computed exactly: JavaScript rounds half up, so this is
`⌊num / den + 1 / 2⌋`. -/
def jsRound (num den : Nat) : Nat :=
  (2 * num + den) / (2 * den)

/-- `admin.fetchTopicMetadata({ topics: names })`: the cluster answers with
the metadata of the requested topics, in cluster order. -/
def fetchTopicMetadata (env : AdminEnv) (names : List String) : List TopicMeta :=
  env.topicList.filter (fun t => names.contains t.name)

/-- The `ClusterOverview` record built by `getClusterOverview()`. -/
structure ClusterOverview where
  brokersOnline : Nat
  brokersTotal : Nat
  topicsCount : Nat
  partitionsCount : Nat
  consumerGroupsCount : Nat
  messagesPerSecond : Nat
  status : String
deriving Repr, DecidableEq

/-- The partition-count block of `getClusterOverview()`: sample the first 50
topic names, sum the partition counts of the fetched metadata
(`reduce((total, topic) => total + topic.partitions.length, 0)`), scale by
`Math.round(avgPartitions * topics.length)` when more than 50 topics exist,
and fall back to `topics.length * 3` when the sampling fetch rejects. -/
def overviewPartitionsCount (env : AdminEnv) (topics : List String) : Nat :=
  let sampleTopics := topics.take 50
  if sampleTopics.length > 0 then
    match env.fetchMetadataRes with
    | .error _ => topics.length * 3
    | .ok _ =>
        let pc := (fetchTopicMetadata env sampleTopics).foldl
          (fun total t => total + t.partitions.length) 0
        if topics.length > 50 then jsRound (pc * topics.length) sampleTopics.length
        else pc
  else 0

/-- `getClusterOverview()`: connection guard, then `describeCluster` and
`listTopics` in parallel (`Promise.all` launches both, so both RPCs appear in
the trace even if one rejects, and any rejection is wrapped with the
`Failed to fetch cluster overview:` prefix), then the sampled partition
count; `consumerGroupsCount` and `messagesPerSecond` are the hard-coded
zeros of the source; `status` compares `brokersOnline` with `brokersTotal`,
both of which are `metadata.brokers.length`. -/
def getClusterOverview (st : KSState) (env : AdminEnv) :
    Except String ClusterOverview × List AdminCall :=
  if !st.admin || !st.isConnected then (.error notConnectedMsg, [])
  else
    match env.describeClusterRes, env.listTopicsRes with
    | .error e, _ =>
        (.error ("Failed to fetch cluster overview: " ++ e),
         [.describeCluster, .listTopics])
    | .ok _, .error e =>
        (.error ("Failed to fetch cluster overview: " ++ e),
         [.describeCluster, .listTopics])
    | .ok _, .ok _ =>
        let topics := env.topicList.map (fun t => t.name)
        let brokersTotal := env.meta.brokers.length
        let brokersOnline := env.meta.brokers.length
        let calls :=
          if (topics.take 50).length > 0 then
            [AdminCall.describeCluster, .listTopics, .fetchTopicMetadata (topics.take 50)]
          else [AdminCall.describeCluster, .listTopics]
        (.ok { brokersOnline := brokersOnline,
               brokersTotal := brokersTotal,
               topicsCount := topics.length,
               partitionsCount := overviewPartitionsCount env topics,
               consumerGroupsCount := 0,
               messagesPerSecond := 0,
               status := if brokersOnline = brokersTotal then "healthy" else "warning" },
         calls)

/-- Response of `GET /api/kafka/cluster` as far as the spec claims observe it:
HTTP status, the `success` flag, the optional `data` overview, and the
optional `error` string. -/
structure ClusterRouteResponse where
  httpStatus : Nat
  success : Bool
  data : Option ClusterOverview
  err : Option String
deriving Repr, DecidableEq

/-- The fallback overview the cluster route embeds in its 503 response. -/
def fallbackOverview : ClusterOverview :=
  { brokersOnline := 0, brokersTotal := 0, topicsCount := 0, partitionsCount := 0,
    consumerGroupsCount := 0, messagesPerSecond := 0, status := "unknown" }

/-- `GET /api/kafka/cluster`: 401 without `data` when no connection is
active; otherwise 200 with the overview, or 503 carrying the error message
and the fallback overview when `getClusterOverview()` throws. -/
def clusterGET (st : KSState) (env : AdminEnv) : ClusterRouteResponse :=
  if !(isConnectionActive st) then
    { httpStatus := 401, success := false, data := none, err := some notConnectedMsg }
  else
    match (getClusterOverview st env).1 with
    | .ok o => { httpStatus := 200, success := true, data := some o, err := none }
    | .error e =>
        { httpStatus := 503, success := false, data := some fallbackOverview,
          err := some e }

/-- One character of the Kafka topic-name pattern `[a-zA-Z0-9._-]`. -/
def isTopicNameChar (c : Char) : Bool :=
  (decide (97 ≤ c.toNat) && decide (c.toNat ≤ 122)) ||
  (decide (65 ≤ c.toNat) && decide (c.toNat ≤ 90)) ||
  (decide (48 ≤ c.toNat) && decide (c.toNat ≤ 57)) ||
  c == '.' || c == '_' || c == '-'

/-- `/^[a-zA-Z0-9._-]+$/.test(s)`: non-empty and every character allowed. -/
def matchesTopicNamePattern (s : String) : Bool :=
  decide (0 < s.length) && s.data.all isTopicNameChar

/-- The emptiness check of `createTopic` (falsy name, or name whose trimmed
form is the empty string): true
exactly when the name is empty or consists only of whitespace (trimming
removes leading and trailing whitespace, so the trimmed string is empty iff
every character is whitespace). -/
def trimmedEmpty (s : String) : Bool :=
  s.data.all (fun c => c.isWhitespace)

/-- The topic record built by `getTopics()` / `getTopicDetails()` (the
`Math.random()` mock metrics of the source are nondeterministic placeholders
and are not embedded). -/
structure KafkaTopic where
  name : String
  partitions : Nat
  replicationFactor : Nat
  config : List (String × String)
  status : String
deriving Repr, DecidableEq

/-- Configuration lookup `topicConfigs[topic.name] || {}` backed by the
environment answer of `admin.describeConfigs`. -/
def lookupConfig (env : AdminEnv) (topicName : String) : List (String × String) :=
  match env.configs.find? (fun e => e.1 == topicName) with
  | some e => e.2
  | none => []

/-- The source expression `topic.partitions[0]?.replicas?.length || 1`: the
replica count of the first partition, except that a missing first partition
or an empty replica list (length `0`, falsy) yields `1`. -/
def topicReplicationFactor (m : TopicMeta) : Nat :=
  match m.partitions.head? with
  | some p => if p.replicas.length = 0 then 1 else p.replicas.length
  | none => 1

/-- `getTopics()`: connection guard, `listTopics`, early `[]` return on a
topic-less cluster, `fetchTopicMetadata` for every name (a rejection is
wrapped with `Failed to fetch topics:`), then a best-effort `describeConfigs`
whose failure degrades to empty config maps, and finally the mapping to
`KafkaTopic` records. -/
def getTopics (st : KSState) (env : AdminEnv) :
    Except String (List KafkaTopic) × List AdminCall :=
  if !st.admin || !st.isConnected then (.error notConnectedMsg, [])
  else
    match env.listTopicsRes with
    | .error e => (.error ("Failed to fetch topics: " ++ e), [.listTopics])
    | .ok _ =>
        let topicNames := env.topicList.map (fun t => t.name)
        if topicNames.length = 0 then (.ok [], [.listTopics])
        else
          match env.fetchMetadataRes with
          | .error e =>
              (.error ("Failed to fetch topics: " ++ e),
               [.listTopics, .fetchTopicMetadata topicNames])
          | .ok _ =>
              let details := fetchTopicMetadata env topicNames
              let cfg : String → List (String × String) :=
                match env.describeConfigsRes with
                | .error _ => fun _ => []
                | .ok _ => fun n => lookupConfig env n
              (.ok (details.map (fun m =>
                 { name := m.name, partitions := m.partitions.length,
                   replicationFactor := topicReplicationFactor m,
                   config := cfg m.name, status := "active" })),
               [.listTopics, .fetchTopicMetadata topicNames,
                .describeConfigs topicNames])

/-- `getTopicDetails(topicName)`: connection guard, metadata fetch for the
one name (wrapped error on rejection, wrapped not-found error when the
answer is empty), best-effort config fetch, and the `KafkaTopic` record. -/
def getTopicDetails (st : KSState) (env : AdminEnv) (topicName : String) :
    Except String KafkaTopic × List AdminCall :=
  if !st.admin || !st.isConnected then (.error notConnectedMsg, [])
  else
    match env.fetchMetadataRes with
    | .error e =>
        (.error ("Failed to fetch topic details: " ++ e),
         [.fetchTopicMetadata [topicName]])
    | .ok _ =>
        match (fetchTopicMetadata env [topicName]).head? with
        | none =>
            (.error ("Failed to fetch topic details: Topic \x27" ++ topicName ++
               "\x27 not found"),
             [.fetchTopicMetadata [topicName]])
        | some m =>
            let config :=
              match env.describeConfigsRes with
              | .error _ => []
              | .ok _ => lookupConfig env topicName
            (.ok { name := m.name, partitions := m.partitions.length,
                   replicationFactor := topicReplicationFactor m,
                   config := config, status := "active" },
             [.fetchTopicMetadata [topicName], .describeConfigs [topicName]])

/-- `createTopic(topicName, partitions, replicationFactor, config)`:
connection guard, then — inside the `try`, so every message is wrapped with
`Failed to create topic:` — empty-name check, 249-character bound (JS counts
UTF-16 code units; this embedding counts characters, which agrees on the
names the pattern accepts), the name pattern, a fresh `listTopics` existence
check, a `describeCluster` broker-count check against the replication
factor, and at last the single `createTopics` RPC. -/
def createTopic (st : KSState) (env : AdminEnv) (topicName : String)
    (partitions replicationFactor : Int) (config : List (String × String)) :
    Except String Unit × List AdminCall :=
  if !st.admin || !st.isConnected then (.error notConnectedMsg, [])
  else if trimmedEmpty topicName then
    (.error "Failed to create topic: Topic name cannot be empty", [])
  else if topicName.length > 249 then
    (.error "Failed to create topic: Topic name cannot exceed 249 characters", [])
  else if !matchesTopicNamePattern topicName then
    (.error ("Failed to create topic: Topic name can only contain letters, " ++
       "numbers, dots, hyphens, and underscores"), [])
  else
    match env.listTopicsRes with
    | .error e => (.error ("Failed to create topic: " ++ e), [.listTopics])
    | .ok _ =>
        if (env.topicList.map (fun t => t.name)).contains topicName then
          (.error ("Failed to create topic: Topic \x27" ++ topicName ++
             "\x27 already exists"), [.listTopics])
        else
          match env.describeClusterRes with
          | .error e =>
              (.error ("Failed to create topic: " ++ e),
               [.listTopics, .describeCluster])
          | .ok _ =>
              if replicationFactor > (env.meta.brokers.length : Int) then
                (.error ("Failed to create topic: Replication factor " ++
                   toString replicationFactor ++ " cannot exceed broker count " ++
                   toString env.meta.brokers.length),
                 [.listTopics, .describeCluster])
              else
                match env.createTopicsRes with
                | .error e =>
                    (.error ("Failed to create topic: " ++ e),
                     [.listTopics, .describeCluster,
                      .createTopics topicName partitions replicationFactor config])
                | .ok _ =>
                    (.ok (),
                     [.listTopics, .describeCluster,
                      .createTopics topicName partitions replicationFactor config])

/-- `deleteTopic(topicName)`: connection guard, fresh `listTopics` existence
check, then the `deleteTopics` RPC; errors are wrapped with
`Failed to delete topic:`. -/
def deleteTopic (st : KSState) (env : AdminEnv) (topicName : String) :
    Except String Unit × List AdminCall :=
  if !st.admin || !st.isConnected then (.error notConnectedMsg, [])
  else
    match env.listTopicsRes with
    | .error e => (.error ("Failed to delete topic: " ++ e), [.listTopics])
    | .ok _ =>
        if !(env.topicList.map (fun t => t.name)).contains topicName then
          (.error ("Failed to delete topic: Topic \x27" ++ topicName ++
             "\x27 does not exist"), [.listTopics])
        else
          match env.deleteTopicsRes with
          | .error e =>
              (.error ("Failed to delete topic: " ++ e),
               [.listTopics, .deleteTopics topicName])
          | .ok _ => (.ok (), [.listTopics, .deleteTopics topicName])

/-- `updateTopicConfig(topicName, configUpdates)`: connection guard, fresh
`listTopics` existence check, then the `alterConfigs` RPC; errors are
wrapped with `Failed to update topic configuration:`. -/
def updateTopicConfig (st : KSState) (env : AdminEnv) (topicName : String)
    (configUpdates : List (String × String)) :
    Except String Unit × List AdminCall :=
  if !st.admin || !st.isConnected then (.error notConnectedMsg, [])
  else
    match env.listTopicsRes with
    | .error e =>
        (.error ("Failed to update topic configuration: " ++ e), [.listTopics])
    | .ok _ =>
        if !(env.topicList.map (fun t => t.name)).contains topicName then
          (.error ("Failed to update topic configuration: Topic \x27" ++
             topicName ++ "\x27 does not exist"), [.listTopics])
        else
          match env.alterConfigsRes with
          | .error e =>
              (.error ("Failed to update topic configuration: " ++ e),
               [.listTopics, .alterConfigs topicName configUpdates])
          | .ok _ => (.ok (), [.listTopics, .alterConfigs topicName configUpdates])

/-- The broker record built by `getBrokers()` (the `Math.random()` mock
metrics and the empty `config` of the source are not embedded). -/
structure Broker where
  id : Int
  host : String
  port : Nat
  rack : Option String
  status : String
  isController : Bool
  topicCount : Nat
  partitionCount : Nat
deriving Repr, DecidableEq

/-- `brokerTopicCounts[brokerId]` exists: the broker id was initialised. -/
def hasBroker (counts : List (Int × Nat × Nat)) (brokerId : Int) : Bool :=
  counts.any (fun e => e.1 == brokerId)

/-- `brokerTopicCounts[brokerId].topics++` on the per-broker histogram
(entries are `(brokerId, topics, partitions)`). -/
def bumpTopicCount (counts : List (Int × Nat × Nat)) (brokerId : Int) :
    List (Int × Nat × Nat) :=
  counts.map (fun e => if e.1 == brokerId then (e.1, e.2.1 + 1, e.2.2) else e)

/-- `brokerTopicCounts[brokerId].partitions++`. -/
def bumpPartitionCount (counts : List (Int × Nat × Nat)) (brokerId : Int) :
    List (Int × Nat × Nat) :=
  counts.map (fun e => if e.1 == brokerId then (e.1, e.2.1, e.2.2 + 1) else e)

/-- `brokersForTopic.add(brokerId)` on the deduplicating per-topic set. -/
def addToSet (s : List Int) (brokerId : Int) : List Int :=
  if s.contains brokerId then s else s ++ [brokerId]

/-- The per-topic loop of `getBrokers()`: every replica of every partition of
the topic that is a known broker has its partition counter incremented and is
collected into the per-topic broker set; afterwards each member of the set
has its topic counter incremented once. -/
def processTopicDistribution (counts : List (Int × Nat × Nat)) (t : TopicMeta) :
    List (Int × Nat × Nat) :=
  let step := t.partitions.foldl
    (fun (acc : List (Int × Nat × Nat) × List Int) p =>
      p.replicas.foldl
        (fun (acc2 : List (Int × Nat × Nat) × List Int) rid =>
          if hasBroker acc2.1 rid then
            (bumpPartitionCount acc2.1 rid, addToSet acc2.2 rid)
          else acc2)
        acc)
    (counts, [])
  step.2.foldl
    (fun c bid => if hasBroker c bid then bumpTopicCount c bid else c) step.1

/-- The sampled-estimate scale-up of `getBrokers()`:
`Math.round(count * topics.length / sampleTopics.length)` on both counters,
computed exactly by `jsRound`. -/
def scaleCounts (counts : List (Int × Nat × Nat)) (total sample : Nat) :
    List (Int × Nat × Nat) :=
  counts.map (fun e =>
    (e.1, jsRound (e.2.1 * total) sample, jsRound (e.2.2 * total) sample))

/-- `brokerTopicCounts[broker.nodeId]?.topics || 0` and the partition twin. -/
def lookupCounts (counts : List (Int × Nat × Nat)) (brokerId : Int) : Nat × Nat :=
  match counts.find? (fun e => e.1 == brokerId) with
  | some e => (e.2.1, e.2.2)
  | none => (0, 0)

/-- The final mapping of `getBrokers()`: one `Broker` record per metadata
broker, `status` fixed to `"online"`, `isController` comparing the node id with the
controller id reported by `describeCluster` (`null` matches no broker). -/
def mkBrokerList (meta : ClusterMeta) (counts : List (Int × Nat × Nat)) :
    List Broker :=
  meta.brokers.map (fun b =>
    { id := b.nodeId, host := b.host, port := b.port, rack := b.rack,
      status := "online",
      isController := match meta.controller with
                      | some c => b.nodeId == c
                      | none => false,
      topicCount := (lookupCounts counts b.nodeId).1,
      partitionCount := (lookupCounts counts b.nodeId).2 })

/-- `getBrokers()`: connection guard, `describeCluster` (a rejection is
wrapped with `Failed to fetch brokers:`), then — inside an inner `try` whose
failure merely leaves the histogram empty — `listTopics`, a sample of the
first 20 topic names, `fetchTopicMetadata` and the per-broker histogram,
scaled up when the sample was strict; finally the broker mapping. -/
def getBrokers (st : KSState) (env : AdminEnv) :
    Except String (List Broker) × List AdminCall :=
  if !st.admin || !st.isConnected then (.error notConnectedMsg, [])
  else
    match env.describeClusterRes with
    | .error e => (.error ("Failed to fetch brokers: " ++ e), [.describeCluster])
    | .ok _ =>
        match env.listTopicsRes with
        | .error _ =>
            (.ok (mkBrokerList env.meta []), [.describeCluster, .listTopics])
        | .ok _ =>
            let topics := env.topicList.map (fun t => t.name)
            if topics.length > 0 then
              let sampleTopics := topics.take 20
              match env.fetchMetadataRes with
              | .error _ =>
                  (.ok (mkBrokerList env.meta []),
                   [.describeCluster, .listTopics, .fetchTopicMetadata sampleTopics])
              | .ok _ =>
                  let init := env.meta.brokers.map
                    (fun b => (b.nodeId, (0 : Nat), (0 : Nat)))
                  let counts := (fetchTopicMetadata env sampleTopics).foldl
                    processTopicDistribution init
                  let counts :=
                    if topics.length > sampleTopics.length then
                      scaleCounts counts topics.length sampleTopics.length
                    else counts
                  (.ok (mkBrokerList env.meta counts),
                   [.describeCluster, .listTopics, .fetchTopicMetadata sampleTopics])
            else
              (.ok (mkBrokerList env.meta []), [.describeCluster, .listTopics])

/-- Parsed JSON body of `POST /api/kafka/topics`. -/
structure CreateTopicBody where
  name : String
  partitions : Int
  replicationFactor : Int
  config : List (String × String)
deriving Repr, DecidableEq

/-- `createTopicFormSchema.safeParse`: the zod issues, in declaration order,
as `(field, message)` pairs; an empty list means the parse succeeded.  All
checks of a field run and accumulate. -/
def validateCreateTopicForm (b : CreateTopicBody) : List (String × String) :=
  (if b.name.length < 1 then [("name", "Topic name is required")] else []) ++
  (if b.name.length > 249 then
     [("name", "Topic name cannot exceed 249 characters")] else []) ++
  (if !matchesTopicNamePattern b.name then
     [("name", "Topic name can only contain letters, numbers, dots, hyphens, " ++
        "and underscores")]
   else []) ++
  (if b.partitions < 1 then [("partitions", "Must have at least 1 partition")]
   else []) ++
  (if b.partitions > 1000 then [("partitions", "Maximum 1000 partitions allowed")]
   else []) ++
  (if b.replicationFactor < 1 then
     [("replicationFactor", "Must have at least 1 replica")] else []) ++
  (if b.replicationFactor > 10 then
     [("replicationFactor", "Maximum 10 replicas allowed")] else [])

/-- Response of `POST /api/kafka/topics` as far as the spec claims observe
it: HTTP status, `success`, the `error` string and the per-field validation
`details`. -/
structure TopicsPostResponse where
  httpStatus : Nat
  success : Bool
  err : Option String
  details : List (String × String)
deriving Repr, DecidableEq

/-- `POST /api/kafka/topics`: connection guard (401), JSON-parse guard (400),
schema validation (400 with per-field details), then delegation to
`createTopic` (200 on success, 422 on a service error). -/
def topicsPOST (st : KSState) (env : AdminEnv) (body? : Option CreateTopicBody) :
    TopicsPostResponse × List AdminCall :=
  if !(isConnectionActive st) then
    ({ httpStatus := 401, success := false, err := some notConnectedMsg,
       details := [] }, [])
  else
    match body? with
    | none =>
        ({ httpStatus := 400, success := false,
           err := some "Invalid JSON in request body", details := [] }, [])
    | some body =>
        let issues := validateCreateTopicForm body
        if issues.isEmpty then
          match createTopic st env body.name body.partitions
              body.replicationFactor body.config with
          | (.ok _, calls) =>
              ({ httpStatus := 200, success := true, err := none,
                 details := [] }, calls)
          | (.error e, calls) =>
              ({ httpStatus := 422, success := false, err := some e,
                 details := [] }, calls)
        else
          ({ httpStatus := 400, success := false,
             err := some "Invalid topic creation parameters",
             details := issues }, [])

/-- Modelled from the claim wording of C9: the number of replicas in the
replica set of the topic first partition, `0` for a partition-less topic —
to be compared with the source expression `topicReplicationFactor`. -/
def replicaSetSizeOfFirstPartition (m : TopicMeta) : Nat :=
  match m.partitions.head? with
  | some p => p.replicas.length
  | none => 0

/-- A state in which a connection is active (such as the state produced by a
successful `connect("localhost:9092")`). -/
def connectedState : KSState :=
  { kafka := true, admin := true, isConnected := true,
    connectionConfig := some { clientId := "kafka-ui", brokers := ["localhost:9092"] } }

/-- An admin environment for a healthy cluster that currently has zero
brokers in its metadata and zero topics; every RPC succeeds. -/
def env0 : AdminEnv := { meta := { brokers := [], controller := none }, topicList := [] }

/-- The concrete overview `getClusterOverview()` computes in `env0`. -/
def overviewEnv0 : ClusterOverview :=
  { brokersOnline := 0, brokersTotal := 0, topicsCount := 0, partitionsCount := 0,
    consumerGroupsCount := 0, messagesPerSecond := 0, status := "healthy" }

/-- A healthy single-broker cluster with no topics; every RPC succeeds. -/
def envFresh : AdminEnv :=
  { meta := { brokers := [{ nodeId := 1, host := "localhost", port := 9092,
                            rack := none }],
              controller := some 1 },
    topicList := [] }

/-- A healthy single-broker cluster that already has a topic `orders`. -/
def envOrders : AdminEnv :=
  { meta := { brokers := [{ nodeId := 1, host := "localhost", port := 9092,
                            rack := none }],
              controller := some 1 },
    topicList := [{ name := "orders",
                    partitions := [{ partitionId := 0, replicas := [1] }] }] }

/-- A create-topic body whose name satisfies the pattern and length bound and
which names the already-existing topic `orders`. -/
def bodyOrders : CreateTopicBody :=
  { name := "orders", partitions := 3, replicationFactor := 1, config := [] }

/-- A schema-valid create-topic body with a fresh name. -/
def bodyFresh : CreateTopicBody :=
  { name := "new-topic", partitions := 3, replicationFactor := 1, config := [] }

/-- A create-topic body whose name violates the pattern (space and `!`). -/
def bodyBadName : CreateTopicBody :=
  { name := "My Topic!", partitions := 3, replicationFactor := 1, config := [] }

/-- A cluster holding one topic `t` whose single partition has an empty
replica set. -/
def envDeg : AdminEnv :=
  { meta := { brokers := [{ nodeId := 1, host := "localhost", port := 9092,
                            rack := none }],
              controller := some 1 },
    topicList := [{ name := "t",
                    partitions := [{ partitionId := 0, replicas := [] }] }] }

/-- A healthy two-broker cluster whose controller is broker 1; no topics. -/
def envTwoBrokers : AdminEnv :=
  { meta := { brokers := [{ nodeId := 1, host := "h1", port := 9092, rack := none },
                          { nodeId := 2, host := "h2", port := 9093, rack := none }],
              controller := some 1 },
    topicList := [] }

/-- The broker list `getBrokers()` returns on `envTwoBrokers`. -/
def brokerListTwo : List Broker :=
  [{ id := 1, host := "h1", port := 9092, rack := none, status := "online",
     isController := true, topicCount := 0, partitionCount := 0 },
   { id := 2, host := "h2", port := 9093, rack := none, status := "online",
     isController := false, topicCount := 0, partitionCount := 0 }]

/-- A single-broker cluster with 51 topics of 2 partitions each, exercising
the sampled-extrapolation branch of `getClusterOverview()`. -/
def envManyTopics : AdminEnv :=
  { meta := { brokers := [{ nodeId := 1, host := "localhost", port := 9092,
                            rack := none }],
              controller := some 1 },
    topicList := (List.range 51).map (fun i =>
      { name := Nat.repr i,
        partitions := [{ partitionId := 0, replicas := [1] },
                       { partitionId := 1, replicas := [1] }] }) }

/-- The overview `getClusterOverview()` computes on `envManyTopics`:
sample sum `100` over `50` topics extrapolated to `51` topics gives
`round(2 × 51) = 102` partitions. -/
def overviewManyTopics : ClusterOverview :=
  { brokersOnline := 1, brokersTotal := 1, topicsCount := 51,
    partitionsCount := 102, consumerGroupsCount := 0, messagesPerSecond := 0,
    status := "healthy" }

theorem initialState_wf : initialState.wf := by
  intro h
  simp [initialState] at h

theorem connectOp_wf (st : KSState) (bs cid : String) (ok ct : Bool) :
    ((connectOp st bs cid ok ct).1).wf := by
  unfold connectOp connectWithConfig disconnectOp
  intro h
  cases ok <;> simp_all

theorem disconnectOp_wf (st : KSState) (ct : Bool) : (disconnectOp st ct).wf := by
  unfold disconnectOp
  intro h
  split at h <;> simp_all

/-- C6: after any `connect(bootstrapServers, clientId)` call followed
immediately by `disconnect()`, `isConnectionActive()` returns `false` and
`getConnectionInfo()` returns `null` — for every prior state, whether the
connect attempt succeeded (`ok = true`) or failed partway (`ok = false`),
and even if the underlying admin close throws during either cleanup
(`ct`, `ct2`). -/
theorem connect_then_disconnect_clears (st : KSState) (bs cid : String)
    (ok ct ct2 : Bool) :
    isConnectionActive (disconnectOp (connectOp st bs cid ok ct).1 ct2) = false ∧
    getConnectionInfo (disconnectOp (connectOp st bs cid ok ct).1 ct2) = none := by
  unfold connectOp connectWithConfig disconnectOp isConnectionActive getConnectionInfo
  cases ok <;> cases ct <;> cases ct2 <;> simp

/-- C1, counterexample: on a connected service whose cluster metadata reports
zero brokers, `getClusterOverview()` succeeds with `brokersTotal = 0` and
`status = "healthy"` — the code has no `brokersTotal > 0` condition, so the
claim "a result with brokersTotal = 0 is never healthy" is false. -/
theorem overview_zero_brokers_healthy :
    (getClusterOverview connectedState env0).1 = .ok overviewEnv0 ∧
    overviewEnv0.brokersTotal = 0 ∧ overviewEnv0.status = "healthy" :=
  ⟨rfl, rfl, rfl⟩

/-- C1, amended: for every successful `getClusterOverview()` result, `status`
is `"healthy"` exactly when `brokersOnline` equals `brokersTotal`, with no
requirement that `brokersTotal > 0`; since the source computes both fields
from the same broker list, every successful result — including one with
`brokersTotal = 0` — has status `"healthy"`. -/
theorem overview_status_healthy_iff (st : KSState) (env : AdminEnv)
    (o : ClusterOverview) (h : (getClusterOverview st env).1 = .ok o) :
    (o.status = "healthy" ↔ o.brokersOnline = o.brokersTotal) ∧
    o.status = "healthy" := by
  unfold getClusterOverview at h
  split at h
  · simp at h
  · split at h
    · simp at h
    · simp at h
    · simp at h
      subst h
      simp

theorem overview_status_healthy_iff_witness :
    (overviewEnv0.status = "healthy" ↔
      overviewEnv0.brokersOnline = overviewEnv0.brokersTotal) ∧
    overviewEnv0.status = "healthy" :=
  overview_status_healthy_iff connectedState env0 overviewEnv0 rfl

/-- C10: every successful `getClusterOverview()` result has
`consumerGroupsCount = 0` and `messagesPerSecond = 0` — the source assigns
both from hard-coded constants, never from a measurement. -/
theorem overview_hardcoded_zero_metrics (st : KSState) (env : AdminEnv)
    (o : ClusterOverview) (h : (getClusterOverview st env).1 = .ok o) :
    o.consumerGroupsCount = 0 ∧ o.messagesPerSecond = 0 := by
  unfold getClusterOverview at h
  split at h
  · simp at h
  · split at h
    · simp at h
    · simp at h
    · simp at h
      subst h
      simp

theorem overview_hardcoded_zero_metrics_witness :
    overviewEnv0.consumerGroupsCount = 0 ∧ overviewEnv0.messagesPerSecond = 0 :=
  overview_hardcoded_zero_metrics connectedState env0 overviewEnv0 rfl

/-- C2, counterexample: a `GET /api/kafka/cluster` issued while no connection
is active answers 401, but its body carries no overview object at all
(`data = none`) — the all-zero `"unknown"` fallback overview claimed for this
response in fact only appears in the 503 branch. -/
theorem clusterGET_401_has_no_data :
    (clusterGET initialState env0).httpStatus = 401 ∧
    (clusterGET initialState env0).data = none :=
  ⟨rfl, rfl⟩

/-- C2, amended: while no connection is active, `GET /api/kafka/cluster`
answers 401 with `success = false`, the not-connected error message and no
overview object in the body; the fallback overview object with all counts `0`
and `status = "unknown"` is instead attached to the 503 response produced
when `getClusterOverview()` fails on an active connection. -/
theorem clusterGET_not_connected (st : KSState) (env : AdminEnv) :
    (isConnectionActive st = false →
      clusterGET st env =
        { httpStatus := 401, success := false, data := none,
          err := some notConnectedMsg }) ∧
    (∀ e, isConnectionActive st = true →
      (getClusterOverview st env).1 = .error e →
      clusterGET st env =
        { httpStatus := 503, success := false, data := some fallbackOverview,
          err := some e }) ∧
    fallbackOverview =
      { brokersOnline := 0, brokersTotal := 0, topicsCount := 0,
        partitionsCount := 0, consumerGroupsCount := 0, messagesPerSecond := 0,
        status := "unknown" } := by
  refine ⟨fun h => ?_, fun e ha he => ?_, rfl⟩
  · simp [clusterGET, h]
  · simp [clusterGET, ha, he]

theorem clusterGET_not_connected_witness :
    clusterGET initialState env0 =
      { httpStatus := 401, success := false, data := none,
        err := some notConnectedMsg } :=
  (clusterGET_not_connected initialState env0).1 rfl

/-- C3: every aggregation and command operation — `getClusterOverview`,
`getBrokers`, `getTopics`, `getTopicDetails`, `createTopic`, `deleteTopic`,
`updateTopicConfig` — invoked on a well-formed state in which
`isConnectionActive()` is `false` throws the not-connected error and issues
no admin-client RPC at all (its call trace is empty). -/
theorem notConnected_guard (st : KSState) (env : AdminEnv) (name : String)
    (parts repl : Int) (cfg upd : List (String × String))
    (hwf : st.wf) (h : isConnectionActive st = false) :
    getClusterOverview st env = (.error notConnectedMsg, []) ∧
    getBrokers st env = (.error notConnectedMsg, []) ∧
    getTopics st env = (.error notConnectedMsg, []) ∧
    getTopicDetails st env name = (.error notConnectedMsg, []) ∧
    createTopic st env name parts repl cfg = (.error notConnectedMsg, []) ∧
    deleteTopic st env name = (.error notConnectedMsg, []) ∧
    updateTopicConfig st env name upd = (.error notConnectedMsg, []) := by
  have hc : st.isConnected = false := by
    cases hic : st.isConnected
    · rfl
    · obtain ⟨ha, hk⟩ := hwf hic
      simp [isConnectionActive, hic, hk] at h
  refine ⟨?_, ?_, ?_, ?_, ?_, ?_, ?_⟩ <;>
    simp [getClusterOverview, getBrokers, getTopics, getTopicDetails,
          createTopic, deleteTopic, updateTopicConfig, hc]

theorem notConnected_guard_witness :
    getClusterOverview initialState env0 = (.error notConnectedMsg, []) ∧
    getBrokers initialState env0 = (.error notConnectedMsg, []) ∧
    getTopics initialState env0 = (.error notConnectedMsg, []) ∧
    getTopicDetails initialState env0 "t" = (.error notConnectedMsg, []) ∧
    createTopic initialState env0 "t" 1 1 [] = (.error notConnectedMsg, []) ∧
    deleteTopic initialState env0 "t" = (.error notConnectedMsg, []) ∧
    updateTopicConfig initialState env0 "t" [] = (.error notConnectedMsg, []) :=
  notConnected_guard initialState env0 "t" 1 1 [] [] initialState_wf rfl

/-- C5: every `createTopic` call whose replication factor strictly exceeds
the broker count that `describeCluster` reports is rejected with an error,
and no `createTopics` RPC ever appears in its call trace — whatever the
partition count, topic name, prior state or RPC outcomes. -/
theorem replication_exceeds_brokers_rejected (st : KSState) (env : AdminEnv)
    (name : String) (parts repl : Int) (cfg : List (String × String))
    (h : (env.meta.brokers.length : Int) < repl) :
    (createTopic st env name parts repl cfg).1.toOption = none ∧
    ((createTopic st env name parts repl cfg).2.filter
       AdminCall.isCreateTopics) = [] := by
  unfold createTopic
  repeat' split
  all_goals simp_all [AdminCall.isCreateTopics, Except.toOption]

theorem replication_exceeds_brokers_rejected_witness :
    (createTopic connectedState envFresh "new-topic" 3 2 []).1.toOption = none ∧
    ((createTopic connectedState envFresh "new-topic" 3 2 []).2.filter
       AdminCall.isCreateTopics) = [] :=
  replication_exceeds_brokers_rejected connectedState envFresh "new-topic" 3 2 []
    (by decide)

theorem isTopicNameChar_not_whitespace (c : Char) (h : isTopicNameChar c = true) :
    c.isWhitespace = false := by
  by_contra hw
  rw [Bool.not_eq_false] at hw
  simp only [Char.isWhitespace, Bool.or_eq_true, decide_eq_true_eq] at hw
  rcases hw with ((rfl | rfl) | rfl) | rfl <;> exact absurd h (by decide)

theorem pattern_not_trimmedEmpty (s : String)
    (h : matchesTopicNamePattern s = true) : trimmedEmpty s = false := by
  unfold matchesTopicNamePattern at h
  simp only [Bool.and_eq_true, decide_eq_true_eq, List.all_eq_true] at h
  obtain ⟨hlen, hall⟩ := h
  have hlen2 : 0 < s.data.length := hlen
  unfold trimmedEmpty
  rcases hd : s.data with _ | ⟨c, rest⟩
  · rw [hd] at hlen2
    simp at hlen2
  · have hc : isTopicNameChar c = true :=
      hall c (by rw [hd]; exact List.mem_cons_self c rest)
    simp [isTopicNameChar_not_whitespace c hc]

/-- C4, counterexample: the name `orders` satisfies the pattern and the
length bound, yet a `POST /api/kafka/topics` for it on a cluster where
`orders` already exists answers 422 and issues no `createTopics` RPC — so
"for every name satisfying the pattern and length bound, exactly one
creation RPC is issued" fails on the code. -/
theorem create_existing_topic_no_rpc :
    matchesTopicNamePattern "orders" = true ∧
    "orders".length ≤ 249 ∧
    (topicsPOST connectedState envOrders (some bodyOrders)).1.httpStatus = 422 ∧
    ((topicsPOST connectedState envOrders (some bodyOrders)).2.filter
       AdminCall.isCreateTopics) = [] := by
  refine ⟨by decide, by decide, rfl, rfl⟩

/-- C4, amended: over an active connection, (a) every create-topic request
whose name is empty, longer than 249 characters, or in violation of the
pattern `[A-Za-z0-9._-]+` is answered 400 with a validation detail naming the
`name` field and issues no admin-client RPC; (b) every request whose body
passes the schema issues exactly one creation RPC with the validated
parameters — provided the topic does not already exist, the replication
factor does not exceed the broker count, and the existence and broker-count
lookups succeed (otherwise the service rejects before the creation RPC, as
the counterexample shows). -/
theorem createTopic_validation (st : KSState) (env : AdminEnv)
    (body : CreateTopicBody) :
    (isConnectionActive st = true →
      (body.name.length < 1 ∨ 249 < body.name.length ∨
        matchesTopicNamePattern body.name = false) →
      (topicsPOST st env (some body)).2 = [] ∧
      (topicsPOST st env (some body)).1.httpStatus = 400 ∧
      (topicsPOST st env (some body)).1.details.any
        (fun e => e.1 == "name") = true) ∧
    (isConnectionActive st = true → st.admin = true →
      validateCreateTopicForm body = [] →
      env.listTopicsRes = .ok () →
      (env.topicList.map (fun t => t.name)).contains body.name = false →
      env.describeClusterRes = .ok () →
      body.replicationFactor ≤ (env.meta.brokers.length : Int) →
      (topicsPOST st env (some body)).2 =
        [AdminCall.listTopics, .describeCluster,
         .createTopics body.name body.partitions body.replicationFactor
           body.config]) := by
  constructor
  · intro hact hbad
    have hany : (validateCreateTopicForm body).any (fun e => e.1 == "name") = true := by
      rcases hbad with h1 | h2 | h3 <;>
        simp_all [validateCreateTopicForm, List.any_append]
    have hemp : (validateCreateTopicForm body).isEmpty = false := by
      cases he : (validateCreateTopicForm body).isEmpty
      · rfl
      · rw [List.isEmpty_iff] at he
        rw [he] at hany
        simp at hany
    simp [topicsPOST, hact, hemp, hany]
  · intro hact hadmin hval hlist hcont hdc hrepl
    have hks : st.isConnected = true ∧ st.kafka = true := by
      simpa [isConnectionActive] using hact
    have hlen : ¬ body.name.length > 249 := by
      intro hc
      have hcopy := hval
      rw [validateCreateTopicForm] at hcopy
      simp [hc, List.append_eq_nil] at hcopy
    have hpat : matchesTopicNamePattern body.name = true := by
      by_contra hc
      rw [Bool.not_eq_true] at hc
      have hcopy := hval
      rw [validateCreateTopicForm] at hcopy
      simp [hc, List.append_eq_nil] at hcopy
    have hnottrim : trimmedEmpty body.name = false :=
      pattern_not_trimmedEmpty body.name hpat
    have hcont2 : ¬ ∃ a ∈ env.topicList, a.name = body.name := by
      simpa using hcont
    cases hres : env.createTopicsRes with
    | ok u =>
        cases u
        simp [topicsPOST, hact, hval, createTopic, hks.1, hadmin, hnottrim,
          hlen, hpat, hlist, hcont2, hdc, hres, not_lt_of_le hrepl]
    | error e =>
        simp [topicsPOST, hact, hval, createTopic, hks.1, hadmin, hnottrim,
          hlen, hpat, hlist, hcont2, hdc, hres, not_lt_of_le hrepl]

theorem createTopic_validation_witness :
    ((topicsPOST connectedState envFresh (some bodyBadName)).2 = [] ∧
     (topicsPOST connectedState envFresh (some bodyBadName)).1.httpStatus = 400 ∧
     (topicsPOST connectedState envFresh (some bodyBadName)).1.details.any
       (fun e => e.1 == "name") = true) ∧
    (topicsPOST connectedState envFresh (some bodyFresh)).2 =
      [AdminCall.listTopics, .describeCluster,
       .createTopics "new-topic" 3 1 []] := by
  constructor
  · exact (createTopic_validation connectedState envFresh bodyBadName).1 rfl
      (Or.inr (Or.inr (by decide)))
  · exact (createTopic_validation connectedState envFresh bodyFresh).2 rfl rfl
      (by decide) rfl (by decide) rfl (by decide)

theorem foldl_add_length {α : Type} (g : α → Nat) (l : List α) (n : Nat) :
    l.foldl (fun total t => total + g t) n = n + (l.map g).sum := by
  induction l generalizing n with
  | nil => simp
  | cons a tl ih => simp [ih, Nat.add_assoc]

theorem filter_contains_map_self {α : Type} (f : α → String) (l : List α) :
    l.filter (fun t => (l.map f).contains (f t)) = l := by
  apply List.filter_eq_self.mpr
  intro a ha
  simp
  exact ⟨a, ha, rfl⟩

theorem filter_contains_take {α : Type} (f : α → String) :
    ∀ (l : List α) (k : Nat), (l.map f).Nodup →
      l.filter (fun t => ((l.map f).take k).contains (f t)) = l.take k := by
  intro l
  induction l with
  | nil => intro k h; simp
  | cons a tl ih =>
      intro k h
      simp only [List.map_cons, List.nodup_cons] at h
      obtain ⟨hna, hnd⟩ := h
      cases k with
      | zero => simp
      | succ k =>
          simp only [List.map_cons, List.take_succ_cons, List.filter_cons]
          have hpa : ((f a :: (tl.map f).take k).contains (f a)) = true := by simp
          rw [hpa]
          have hcongr :
              tl.filter (fun t => (f a :: (tl.map f).take k).contains (f t)) =
                tl.filter (fun t => ((tl.map f).take k).contains (f t)) := by
            apply List.filter_congr
            intro t ht
            have hne : f t ≠ f a := by
              intro he
              exact hna (he ▸ List.mem_map_of_mem f ht)
            simp [List.contains_cons, hne]
          simp only [if_true]
          rw [hcongr, ih k hnd]

theorem overviewPartitionsCount_eq (env : AdminEnv)
    (hnd : (env.topicList.map (fun t => t.name)).Nodup) :
    overviewPartitionsCount env (env.topicList.map (fun t => t.name)) =
      match env.fetchMetadataRes with
      | .error _ => env.topicList.length * 3
      | .ok _ =>
          if env.topicList.length ≤ 50 then
            ((env.topicList.map (fun t => t.partitions.length)).sum)
          else
            jsRound (((env.topicList.take 50).map
                (fun t => t.partitions.length)).sum * env.topicList.length) 50 := by
  unfold overviewPartitionsCount fetchTopicMetadata
  cases hf : env.fetchMetadataRes with
  | error e =>
      by_cases h0 : env.topicList.length = 0
      · have hnil : env.topicList = [] := List.length_eq_zero.mp h0
        simp [hnil]
      · have hpos : 0 < ((env.topicList.map (fun t => t.name)).take 50).length := by
          simp only [List.length_take, List.length_map]
          omega
        simp [hpos, List.length_map]
  | ok u =>
      cases u
      by_cases hle : env.topicList.length ≤ 50
      · by_cases h0 : env.topicList.length = 0
        · have hnil : env.topicList = [] := List.length_eq_zero.mp h0
          simp [hnil]
        · have hlenmap : (env.topicList.map (fun t => t.name)).length ≤ 50 := by
            simp only [List.length_map]; exact hle
          have htake : (env.topicList.map (fun t => t.name)).take 50 =
              env.topicList.map (fun t => t.name) :=
            List.take_of_length_le hlenmap
          have hpos : 0 < (env.topicList.map (fun t => t.name)).length := by
            simp only [List.length_map]; omega
          rw [htake]
          simp only [hpos, if_pos]
          rw [filter_contains_map_self, foldl_add_length]
          have hnot : ¬ (env.topicList.map (fun t => t.name)).length > 50 := by
            simp only [List.length_map]; omega
          simp [hnot, hle]
      · have hlen50 : ((env.topicList.map (fun t => t.name)).take 50).length = 50 := by
          simp only [List.length_take, List.length_map]
          omega
        have hpos : 0 < ((env.topicList.map (fun t => t.name)).take 50).length := by
          omega
        simp only [hpos, if_pos]
        have hmt : (env.topicList.map (fun t => t.name)).take 50 =
            (env.topicList.take 50).map (fun t => t.name) :=
          (List.map_take (fun t => t.name) env.topicList 50).symm
        have hfilter :
            env.topicList.filter
                (fun t => ((env.topicList.map (fun s => s.name)).take 50).contains t.name) =
              env.topicList.take 50 :=
          filter_contains_take (fun t => t.name) env.topicList 50 hnd
        rw [hfilter, foldl_add_length]
        have hgt : (env.topicList.map (fun t => t.name)).length > 50 := by
          simp only [List.length_map]; omega
        simp [hgt, hlen50, hle, List.length_map]

/-- C7: on an active connection whose `describeCluster` and `listTopics`
calls succeed and whose topics have pairwise-distinct names, the
`partitionsCount` of a successful `getClusterOverview()` is: the exact sum
of the per-topic partition counts when there are at most 50 topics;
`Math.round` of the average partition count over the first 50 topics times
the total topic count when there are more; and `topicCount × 3` when the
sampling metadata fetch fails — and it is non-negative in every case. -/
theorem overview_partitionsCount_cases (st : KSState) (env : AdminEnv)
    (hadmin : st.admin = true) (hconn : st.isConnected = true)
    (hd : env.describeClusterRes = .ok ()) (hl : env.listTopicsRes = .ok ())
    (hnd : (env.topicList.map (fun t => t.name)).Nodup) :
    ∀ o, (getClusterOverview st env).1 = .ok o →
      o.partitionsCount =
        (match env.fetchMetadataRes with
         | .error _ => env.topicList.length * 3
         | .ok _ =>
            if env.topicList.length ≤ 50 then
              ((env.topicList.map (fun t => t.partitions.length)).sum)
            else
              jsRound (((env.topicList.take 50).map
                  (fun t => t.partitions.length)).sum * env.topicList.length) 50) ∧
      0 ≤ o.partitionsCount := by
  intro o ho
  unfold getClusterOverview at ho
  rw [hd, hl] at ho
  simp only [hadmin, hconn, Bool.not_true, Bool.or_self, Bool.false_or,
    if_neg, ite_false] at ho
  simp at ho
  refine ⟨?_, Nat.zero_le _⟩
  rw [← ho]
  simp only []
  exact overviewPartitionsCount_eq env hnd

theorem overview_partitionsCount_cases_witness :
    (envManyTopics.topicList.map (fun t => t.name)).Nodup ∧
    overviewManyTopics.partitionsCount =
      jsRound (((envManyTopics.topicList.take 50).map
          (fun t => t.partitions.length)).sum * envManyTopics.topicList.length) 50 := by
  constructor
  · decide
  · have h := overview_partitionsCount_cases connectedState envManyTopics rfl rfl
      rfl rfl (by decide) overviewManyTopics (by rfl)
    simpa using h.1

theorem length_filter_isController_zero (c : Int)
    (counts : List (Int × Nat × Nat)) :
    ∀ bs : List BrokerMeta, c ∉ bs.map (fun b => b.nodeId) →
      (((bs.map (fun b =>
          (⟨b.nodeId, b.host, b.port, b.rack, "online", b.nodeId == c,
            (lookupCounts counts b.nodeId).1,
            (lookupCounts counts b.nodeId).2⟩ : Broker))).filter
        (fun x => x.isController)).length) = 0 := by
  intro bs
  induction bs with
  | nil => intro _; rfl
  | cons b tl ih =>
      intro hnot
      simp only [List.map_cons, List.mem_cons, not_or] at hnot
      obtain ⟨hne, htl⟩ := hnot
      have hbc : (b.nodeId == c) = false := by
        simp
        exact fun he => hne he.symm
      simp only [List.map_cons, List.filter_cons, hbc]
      exact ih htl

theorem length_filter_isController_one (c : Int)
    (counts : List (Int × Nat × Nat)) :
    ∀ bs : List BrokerMeta, (bs.map (fun b => b.nodeId)).Nodup →
      c ∈ bs.map (fun b => b.nodeId) →
      (((bs.map (fun b =>
          (⟨b.nodeId, b.host, b.port, b.rack, "online", b.nodeId == c,
            (lookupCounts counts b.nodeId).1,
            (lookupCounts counts b.nodeId).2⟩ : Broker))).filter
        (fun x => x.isController)).length) = 1 := by
  intro bs
  induction bs with
  | nil =>
      intro _ hmem
      simp at hmem
  | cons b tl ih =>
      intro hnd hmem
      simp only [List.map_cons, List.nodup_cons] at hnd
      obtain ⟨hb, hnd⟩ := hnd
      by_cases hbc : b.nodeId = c
      · have hzero := length_filter_isController_zero c counts tl (hbc ▸ hb)
        simp only [List.map_cons, List.filter_cons]
        have : (b.nodeId == c) = true := by simp [hbc]
        simp only [this]
        simp [hzero]
      · have hmem2 : c ∈ tl.map (fun b => b.nodeId) := by
          simp only [List.map_cons, List.mem_cons] at hmem
          rcases hmem with h | h
          · exact absurd h.symm hbc
          · exact h
        have : (b.nodeId == c) = false := by simp [hbc]
        simp only [List.map_cons, List.filter_cons, this]
        exact ih hnd hmem2

theorem mkBrokerList_controller (meta : ClusterMeta)
    (counts : List (Int × Nat × Nat)) (c : Int)
    (hctrl : meta.controller = some c)
    (hnd : (meta.brokers.map (fun b => b.nodeId)).Nodup)
    (hmem : c ∈ meta.brokers.map (fun b => b.nodeId)) :
    ((mkBrokerList meta counts).filter (fun b => b.isController)).length = 1 := by
  unfold mkBrokerList
  rw [hctrl]
  exact length_filter_isController_one c counts meta.brokers hnd hmem

/-- C8: whenever `getBrokers()` returns a broker list, and the cluster
metadata is that of a genuine connected cluster — the controller id reported
by `describeCluster` is the node id of one of the listed brokers and node
ids are pairwise distinct — exactly one broker of the returned list has
`isController = true`. -/
theorem getBrokers_unique_controller (st : KSState) (env : AdminEnv) (c : Int)
    (hctrl : env.meta.controller = some c)
    (hmem : c ∈ env.meta.brokers.map (fun b => b.nodeId))
    (hnd : (env.meta.brokers.map (fun b => b.nodeId)).Nodup) :
    ∀ l, (getBrokers st env).1 = .ok l →
      (l.filter (fun b => b.isController)).length = 1 := by
  intro l hl
  unfold getBrokers at hl
  repeat' split at hl
  all_goals simp at hl
  all_goals try split_ifs at hl
  all_goals try simp at hl
  all_goals rw [← hl]
  all_goals exact mkBrokerList_controller env.meta _ c hctrl hnd hmem

theorem getBrokers_unique_controller_witness :
    (brokerListTwo.filter (fun b => b.isController)).length = 1 :=
  getBrokers_unique_controller connectedState envTwoBrokers 1 rfl (by decide)
    (by decide) brokerListTwo (by rfl)

theorem topicReplicationFactor_eq_max (m : TopicMeta) :
    topicReplicationFactor m = max 1 (replicaSetSizeOfFirstPartition m) := by
  unfold topicReplicationFactor replicaSetSizeOfFirstPartition
  cases m.partitions.head? with
  | none => rfl
  | some p =>
      by_cases h : p.replicas.length = 0
      · simp [h]
      · simp only [h, if_neg, ite_false]
        omega

/-- C9, counterexample: on a topic whose first partition has an empty
replica set, `getTopicDetails()` reports `replicationFactor = 1` although the
number of replicas in the replica set of the first partition is `0` — the
`|| 1` fallback of the source turns the falsy length `0` into `1`, so the
claimed equality fails. -/
theorem topicDetails_empty_replicas_repl_one :
    ((getTopicDetails connectedState envDeg "t").1.toOption.map
       (fun t => t.replicationFactor)) = some 1 ∧
    replicaSetSizeOfFirstPartition
      { name := "t", partitions := [{ partitionId := 0, replicas := [] }] } = 0 ∧
    envDeg.topicList =
      [{ name := "t", partitions := [{ partitionId := 0, replicas := [] }] }] :=
  ⟨rfl, rfl, rfl⟩

/-- C9, amended: every topic object returned by `getTopics()` or
`getTopicDetails()` corresponds to a metadata topic of the same name whose
`replicationFactor` field equals the replica-set size of the first partition
whenever that partition exists and its replica set is non-empty, and
defaults to `1` otherwise — that is, it equals
`max 1 (replica-set size of the first partition)`. -/
theorem replicationFactor_first_partition (st : KSState) (env : AdminEnv)
    (topicName : String) :
    (∀ l, (getTopics st env).1 = .ok l → ∀ t ∈ l, ∃ m ∈ env.topicList,
        t.name = m.name ∧
        t.replicationFactor = max 1 (replicaSetSizeOfFirstPartition m)) ∧
    (∀ t, (getTopicDetails st env topicName).1 = .ok t → ∃ m ∈ env.topicList,
        t.name = m.name ∧
        t.replicationFactor = max 1 (replicaSetSizeOfFirstPartition m)) := by
  constructor
  · intro l hl t ht
    unfold getTopics at hl
    repeat' split at hl
    all_goals simp at hl
    all_goals try split_ifs at hl
    all_goals try simp at hl
    all_goals subst hl
    all_goals simp only [List.mem_map, List.not_mem_nil] at ht
    all_goals obtain ⟨m, hm, rfl⟩ := ht
    all_goals
      exact ⟨m, List.mem_of_mem_filter hm, rfl, topicReplicationFactor_eq_max m⟩
  · intro t ht
    unfold getTopicDetails at ht
    repeat' split at ht
    all_goals simp at ht
    all_goals rename_i m heqh xcfg acfg heqcfg
    all_goals
      exact ⟨m, List.mem_of_mem_filter (List.mem_of_mem_head? heqh),
        by rw [← ht], by rw [← ht]; exact topicReplicationFactor_eq_max m⟩

theorem replicationFactor_first_partition_witness :
    ∃ m ∈ envDeg.topicList,
      ({ name := "t", partitions := 1, replicationFactor := 1, config := [],
         status := "active" } : KafkaTopic).name = m.name ∧
      ({ name := "t", partitions := 1, replicationFactor := 1, config := [],
         status := "active" } : KafkaTopic).replicationFactor =
        max 1 (replicaSetSizeOfFirstPartition m) :=
  (replicationFactor_first_partition connectedState envDeg "t").2
    { name := "t", partitions := 1, replicationFactor := 1, config := [],
      status := "active" } (by rfl)

end KafkaUI
